import Mathlib

/-!
Shallow embedding of the ipmitool custom component
(custom_components/ipmitool/__init__.py and device_action.py).

The component polls an IPMI-to-HTTP bridge and caches the last successful
device snapshot; five power commands each issue one HTTP GET to a fixed
sub-path.  Python-level behaviours that the claims depend on are modelled
explicitly: dictionary subscripting that can raise KeyError, string
truthiness (None and "" are falsy), the broad try/except wrappers, and the
`+` operator on optional strings that raises TypeError when an operand is
None.
-/

namespace Ipmitool

/-- Mirror of the `IpmiDeviceInfo` dataclass: `device`, `sensors` and
`states` are JSON string-to-string mappings (modelled as association
lists), `power_on` a boolean, `alias` the optional configured alias. -/
structure IpmiDeviceInfo where
  device : List (String × String)
  power_on : Bool
  sensors : List (String × String)
  states : List (String × String)
  «alias» : Option String
  deriving DecidableEq, Repr

/-- Python dictionary subscript `d[k]`: the stored value when the key is
present, a KeyError carrying the key otherwise. -/
def dictGet (d : List (String × String)) (k : String) : Except String String :=
  match d.lookup k with
  | some v => Except.ok v
  | none => Except.error k

/-- Python truthiness of an optional string: None and "" are falsy. -/
def falsy : Option String → Bool
  | none => true
  | some s => s == ""

/-- Mirror of `_unique_id_from_status` (__init__.py lines 141-158): returns
the sentinel `none` when the alias is falsy; otherwise reads
`device["manufacturer_name"]` and `device["product_name"]` (each read can
raise KeyError), keeps the manufacturer when truthy, else the product name
when truthy, appends the alias and joins the collected parts with "_". -/
def unique_id_from_status (info : IpmiDeviceInfo) : Except String (Option String) :=
  if falsy info.«alias» then Except.ok none
  else
    match dictGet info.device "manufacturer_name" with
    | Except.error k => Except.error k
    | Except.ok manufacturer =>
      match dictGet info.device "product_name" with
      | Except.error k => Except.error k
      | Except.ok product_name =>
        let a := (info.«alias»).getD ""
        let group : List String :=
          (if manufacturer ≠ "" then [manufacturer]
           else if product_name ≠ "" then [product_name] else []) ++ [a]
        Except.ok (some (String.intercalate "_" group))

/-- The identity formula exactly as the claim words it: the manufacturer
name (or, when the manufacturer name is absent, the product name) joined
with the alias by the fixed separator "_".  Stated from the claim text,
for comparison against `unique_id_from_status`. -/
def claimed_identity (manufacturer product_name a : String) : String :=
  (if manufacturer ≠ "" then manufacturer else product_name) ++ "_" ++ a

theorem intercalate_pair (x y : String) :
    String.intercalate "_" [x, y] = x ++ "_" ++ y := rfl

theorem intercalate_single (x : String) :
    String.intercalate "_" [x] = x := rfl

/-- The JSON body the bridge returns, as the status endpoint is expected to
shape it; every key may be absent (`none`), which a Python subscript turns
into a KeyError. -/
structure RawResponse where
  success : Option Bool
  message : Option String
  device : Option (List (String × String))
  power_on : Option Bool
  sensors : Option (List (String × String))
  states : Option (List (String × String))
  deriving DecidableEq, Repr

/-- What one `getJson` call yields: either a parsed JSON body, or the
exception raised by `requests.get` / `.json()` (network error, timeout,
malformed JSON). -/
inductive HttpOutcome where
  | ok (json : RawResponse)
  | exn (msg : String)
  deriving DecidableEq, Repr

/-- The Python exceptions the component's code can raise. -/
inductive PyError where
  | keyError (k : String)
  | transport (msg : String)
  deriving DecidableEq, Repr

/-- Python subscript `json[k]` on an optional field. -/
def getField {α : Type} (v : Option α) (k : String) : Except PyError α :=
  match v with
  | some x => Except.ok x
  | none => Except.error (PyError.keyError k)

/-- What one call to `update` (or a command method) logs. -/
inductive PollLog where
  | noLog
  | bridgeError (msg : String)
  | connectError (e : PyError)
  deriving DecidableEq, Repr

/-- Body of `PyIpmiData.update` inside the `try` (__init__.py lines
221-233): fetch the JSON (a transport failure raises), read `success`
(KeyError when absent); on success read the four fields, build a fresh
`IpmiDeviceInfo` and store it; otherwise log `json["message"]`.  Returns
the new value of `self._device_info` together with what was logged;
`Except.error` is an exception escaping the `try` block. -/
def update_try («alias» : Option String) (cached : Option IpmiDeviceInfo)
    (o : HttpOutcome) : Except PyError (Option IpmiDeviceInfo × PollLog) :=
  match o with
  | HttpOutcome.exn m => Except.error (PyError.transport m)
  | HttpOutcome.ok json =>
    match getField json.success "success" with
    | Except.error e => Except.error e
    | Except.ok success =>
      if success then
        match getField json.device "device" with
        | Except.error e => Except.error e
        | Except.ok device =>
          match getField json.power_on "power_on" with
          | Except.error e => Except.error e
          | Except.ok power_on =>
            match getField json.sensors "sensors" with
            | Except.error e => Except.error e
            | Except.ok sensors =>
              match getField json.states "states" with
              | Except.error e => Except.error e
              | Except.ok states =>
                Except.ok (some { device := device, power_on := power_on,
                                  sensors := sensors, states := states,
                                  «alias» := «alias» }, PollLog.noLog)
      else
        match getField json.message "message" with
        | Except.error e => Except.error e
        | Except.ok message => Except.ok (cached, PollLog.bridgeError message)

/-- Python `try: body except Exception as err: handler(err)` where the
handler itself cannot raise: the handler result replaces any exception. -/
def tryExcept {α : Type} (body : Except PyError α) (handler : PyError → α) :
    Except PyError α :=
  match body with
  | Except.ok a => Except.ok a
  | Except.error e => Except.ok (handler e)

/-- `PyIpmiData.update` as a whole method, with its `try`/`except Exception`
(lines 220-236).  The result stays `Except`-valued so that an uncaught
exception would be visible as `Except.error`. -/
def update_method («alias» : Option String) (cached : Option IpmiDeviceInfo)
    (o : HttpOutcome) : Except PyError (Option IpmiDeviceInfo × PollLog) :=
  tryExcept (update_try «alias» cached o)
    (fun e => (cached, PollLog.connectError e))

/-- The state transition `PyIpmiData.update` performs on
`self._device_info` (read back through the `device_info` property),
together with what it logs. -/
def update («alias» : Option String) (cached : Option IpmiDeviceInfo)
    (o : HttpOutcome) : Option IpmiDeviceInfo × PollLog :=
  match update_try «alias» cached o with
  | Except.ok r => r
  | Except.error e => (cached, PollLog.connectError e)

/-- What the coordinator update callback hands to the scheduler. -/
inductive CoordinatorResult where
  | ok (info : IpmiDeviceInfo)
  | updateFailed (msg : String)
  deriving DecidableEq, Repr

/-- Mirror of `async_update_data` (__init__.py lines 78-84): run
`data.update`, then raise `UpdateFailed` when `data.device_info` is still
None, else return the (possibly stale) snapshot as the poll result. -/
def async_update_data («alias» : Option String) (cached : Option IpmiDeviceInfo)
    (o : HttpOutcome) : Option IpmiDeviceInfo × CoordinatorResult :=
  match (update «alias» cached o).1 with
  | none => (none, CoordinatorResult.updateFailed "Error fetching IPMI state")
  | some info => (some info, CoordinatorResult.ok info)

/-- A command method body (`power_on` ... `soft_shutdown`, lines 238-266):
a single `self.getJson(<name>)` whose JSON result is discarded, wrapped in
the same `try`/`except Exception` logging pattern. -/
def command_method (o : HttpOutcome) : Except PyError PollLog :=
  tryExcept
    (match o with
     | HttpOutcome.ok _ => Except.ok PollLog.noLog
     | HttpOutcome.exn m => Except.error (PyError.transport m))
    (fun e => PollLog.connectError e)

/-- The logging outcome a command method settles on. -/
def command_result (o : HttpOutcome) : PollLog :=
  match o with
  | HttpOutcome.ok _ => PollLog.noLog
  | HttpOutcome.exn m => PollLog.connectError (PyError.transport m)

/-- Connection parameters a `PyIpmiData` instance is constructed with
(__init__.py lines 177-191). -/
structure ConnectionConfig where
  host : String
  port : Nat
  «alias» : Option String
  username : Option String
  password : Option String
  deriving DecidableEq, Repr

/-- One `requests.get` call: the URL together with the query parameters
`host`, `port`, `user`, `password`. -/
structure HttpRequest where
  url : String
  host : String
  port : Nat
  user : Option String
  password : Option String
  deriving DecidableEq, Repr

/-- The single request `PyIpmiData.getJson` issues (lines 205-218): the
URL is the base URL, with "/" and the path appended when a path is given;
the query parameters always carry the configured host, port, username and
password.

Modelled from the spec: the base URL constant `IPMI_URL` lives in
`const.py`, which is not among the sources; the spec describes it only as
the bridge base URL, so it is taken here as an arbitrary string. -/
def getJson_request (base : String) (cfg : ConnectionConfig)
    (path : Option String) : HttpRequest :=
  { url := match path with
      | none => base
      | some p => base ++ "/" ++ p,
    host := cfg.host, port := cfg.port,
    user := cfg.username, password := cfg.password }

/-- Requests issued by one `update` call: exactly the one `getJson(None)`
on line 222. -/
def update_requests (base : String) (cfg : ConnectionConfig) : List HttpRequest :=
  [getJson_request base cfg none]

/-- Requests issued by one `power_on` call: the one `getJson("power_on")`
on line 240. -/
def power_on_requests (base : String) (cfg : ConnectionConfig) : List HttpRequest :=
  [getJson_request base cfg (some "power_on")]

/-- Requests issued by one `power_off` call (line 246). -/
def power_off_requests (base : String) (cfg : ConnectionConfig) : List HttpRequest :=
  [getJson_request base cfg (some "power_off")]

/-- Requests issued by one `power_cycle` call (line 252). -/
def power_cycle_requests (base : String) (cfg : ConnectionConfig) : List HttpRequest :=
  [getJson_request base cfg (some "power_cycle")]

/-- Requests issued by one `power_reset` call (line 258). -/
def power_reset_requests (base : String) (cfg : ConnectionConfig) : List HttpRequest :=
  [getJson_request base cfg (some "power_reset")]

/-- Requests issued by one `soft_shutdown` call (line 264). -/
def soft_shutdown_requests (base : String) (cfg : ConnectionConfig) : List HttpRequest :=
  [getJson_request base cfg (some "soft_shutdown")]

/-- Modelled from the spec: `INTEGRATION_SUPPORTED_COMMANDS` lives in
`const.py`, which is not among the sources; the spec fixes the set of valid
command names to exactly these five. -/
def INTEGRATION_SUPPORTED_COMMANDS : List String :=
  ["power_on", "power_off", "power_cycle", "power_reset", "soft_shutdown"]

/-- Python `cmd.replace(".", "_")`: for the single-character pattern "."
this is a character-wise substitution. -/
def replaceDot (s : String) : String :=
  String.mk (s.data.map (fun c => if c = '.' then '_' else c))

/-- `ACTION_TYPES` (device_action.py line 20): every supported command name
with dots replaced by underscores. -/
def ACTION_TYPES : List String :=
  INTEGRATION_SUPPORTED_COMMANDS.map replaceDot

/-- Outcome of dispatching a device action by name. -/
inductive DispatchResult where
  | invoked (name : String)
  | unknownCommand (name : String)
  deriving DecidableEq, Repr

/-- The device-action dispatch path: the host platform validates the action
configuration against `ACTION_SCHEMA` (device_action.py lines 22-26, which
requires the type to satisfy `vol.In(ACTION_TYPES)`) before
`async_call_action_from_config` (lines 48-62) resolves
`getattr(data, name)` and runs the method, which issues its one request; a
name the schema rejects never reaches the method call and issues nothing. -/
def async_call_action_from_config (base : String) (cfg : ConnectionConfig)
    (name : String) : DispatchResult × List HttpRequest :=
  if name ∈ ACTION_TYPES then
    (DispatchResult.invoked name, [getJson_request base cfg (some name)])
  else
    (DispatchResult.unknownCommand name, [])

/-- How the unique-id computation in `async_setup_entry` ends. -/
inductive SetupStep where
  | completed (unique_id : String)
  | typeError
  | keyError (k : String)
  deriving DecidableEq, Repr

/-- Python `+` applied to two optional strings: concatenation when both are
strings, a TypeError when either operand is None. -/
def pyAdd : Option String → Option String → Except Unit String
  | some a, some b => Except.ok (a ++ b)
  | _, _ => Except.error ()

/-- The unique-id computation of `async_setup_entry` (__init__.py lines
103-105): `unique_id = alias + _unique_id_from_status(deviceInfo)`,
followed by `if unique_id is None: unique_id = entry.entry_id`.  A
KeyError from `_unique_id_from_status` or a TypeError from `+` aborts the
setup; when `+` succeeds its result is a string, so the `is None` fallback
to `entry_id` is never taken. -/
def setup_unique_id (entry_id : String) («alias» : Option String)
    (info : IpmiDeviceInfo) : SetupStep :=
  match unique_id_from_status info with
  | Except.error k => SetupStep.keyError k
  | Except.ok uid =>
    match pyAdd «alias» uid with
    | Except.error _ => SetupStep.typeError
    | Except.ok unique_id =>
      -- `if unique_id is None: unique_id = entry.entry_id` — unique_id is a
      -- str here, never None, so the entry_id substitution cannot happen
      if (none : Option String) = some unique_id then SetupStep.completed entry_id
      else SetupStep.completed unique_id

/-! Concrete snapshots and responses used by the witnesses and
counterexamples below. -/

/-- A previously stored snapshot for a device with full identity fields. -/
def snap0 : IpmiDeviceInfo :=
  { device := [("manufacturer_name", "Acme"), ("product_name", "X1"),
               ("firmware_revision", "1.0")],
    power_on := true, sensors := [], states := [], «alias» := some "rack3" }

/-- A bridge response that rejects the poll with a message. -/
def respAuthFail : RawResponse :=
  { success := some false, message := some "auth failed",
    device := none, power_on := none, sensors := none, states := none }

/-- A successful, fully populated bridge response. -/
def respOk : RawResponse :=
  { success := some true, message := none,
    device := some [("manufacturer_name", "Acme"), ("product_name", "X1"),
                    ("firmware_revision", "1.0")],
    power_on := some true, sensors := some [("temp", "20")],
    states := some [("fan", "ok")] }

/-- A response claiming success but missing the `power_on` key. -/
def respMissingPowerOn : RawResponse :=
  { success := some true, message := none,
    device := some [("manufacturer_name", "Acme"), ("product_name", "X1")],
    power_on := none, sensors := some [], states := some [] }

/-- A snapshot with an alias but empty manufacturer and product names. -/
def snapEmptyNames : IpmiDeviceInfo :=
  { device := [("manufacturer_name", ""), ("product_name", "")],
    power_on := false, sensors := [], states := [], «alias» := some "rack3" }

/-- A snapshot with no alias configured. -/
def snapNoAlias : IpmiDeviceInfo :=
  { device := [("manufacturer_name", "Acme"), ("product_name", "X1")],
    power_on := true, sensors := [("temp", "20")], states := [],
    «alias» := none }

/-- Same connection identity as `snapNoAlias` but different power state,
sensors and states. -/
def snapNoAlias2 : IpmiDeviceInfo :=
  { device := [("manufacturer_name", "Acme"), ("product_name", "X1")],
    power_on := false, sensors := [], states := [("s", "ok")],
    «alias» := none }

/-- Shared frame lemma: whenever `update` does not store a fresh snapshot
(its log is not `noLog`), the cached snapshot is exactly what it was. -/
theorem update_failed_preserves («alias» : Option String)
    (cached : Option IpmiDeviceInfo) (o : HttpOutcome)
    (h : (update «alias» cached o).2 ≠ PollLog.noLog) :
    (update «alias» cached o).1 = cached := by
  cases o with
  | exn m => rfl
  | ok json =>
    obtain ⟨su, me, de, po, se, st⟩ := json
    cases su with
    | none => rfl
    | some b =>
      cases b with
      | false =>
        cases me with
        | none => rfl
        | some m => rfl
      | true =>
        cases de with
        | none => rfl
        | some d =>
          cases po with
          | none => rfl
          | some p =>
            cases se with
            | none => rfl
            | some s =>
              cases st with
              | none => rfl
              | some t => exact absurd rfl h

/-- C4: for every poll that fails — bridge rejection, transport error or a
malformed body — the cached snapshot after `update` equals its value before
the call; a failure never clears an existing snapshot. -/
theorem C4_failed_poll_preserves_snapshot («alias» : Option String)
    (cached : Option IpmiDeviceInfo) (o : HttpOutcome)
    (h : (update «alias» cached o).2 ≠ PollLog.noLog) :
    (update «alias» cached o).1 = cached :=
  update_failed_preserves «alias» cached o h

/-- Witness for C4 at a concrete transport error over a stored snapshot. -/
theorem C4_witness :
    (update (some "rack3") (some snap0) (HttpOutcome.exn "timeout")).2 ≠ PollLog.noLog ∧
    (update (some "rack3") (some snap0) (HttpOutcome.exn "timeout")).1 = some snap0 :=
  ⟨by decide, C4_failed_poll_preserves_snapshot (some "rack3") (some snap0)
      (HttpOutcome.exn "timeout") (by decide)⟩

/-- C5: a successful poll (success=true, all four fields present) stores
exactly the snapshot parsed from the response plus the configured alias,
regardless of — and fully replacing — whatever was cached before. -/
theorem C5_success_replaces_snapshot («alias» : Option String)
    (cached : Option IpmiDeviceInfo) (json : RawResponse)
    (d : List (String × String)) (po : Bool) (se st : List (String × String))
    (hs : json.success = some true) (hd : json.device = some d)
    (hp : json.power_on = some po) (hse : json.sensors = some se)
    (hst : json.states = some st) :
    update «alias» cached (HttpOutcome.ok json) =
      (some { device := d, power_on := po, sensors := se, states := st,
              «alias» := «alias» }, PollLog.noLog) := by
  obtain ⟨su, me, de, po2, se2, st2⟩ := json
  dsimp only at hs hd hp hse hst
  subst hs; subst hd; subst hp; subst hse; subst hst
  rfl

/-- Witness for C5: a fully populated successful response replaces a
previously cached snapshot. -/
theorem C5_witness :
    respOk.success = some true ∧
    update (some "rack3") (some snapNoAlias) (HttpOutcome.ok respOk) =
      (some { device := [("manufacturer_name", "Acme"), ("product_name", "X1"),
                         ("firmware_revision", "1.0")],
              power_on := true, sensors := [("temp", "20")],
              states := [("fan", "ok")], «alias» := some "rack3" },
       PollLog.noLog) :=
  ⟨rfl, C5_success_replaces_snapshot (some "rack3") (some snapNoAlias) respOk
      _ _ _ _ rfl rfl rfl rfl rfl⟩

/-- C10: a response with success=true but a missing expected key aborts the
update before the assignment to the cached snapshot, so the prior snapshot
stays observable and no partially built snapshot ever is. -/
theorem C10_atomic_update («alias» : Option String)
    (cached : Option IpmiDeviceInfo) (json : RawResponse)
    (hs : json.success = some true)
    (hmiss : json.device = none ∨ json.power_on = none ∨
             json.sensors = none ∨ json.states = none) :
    (update «alias» cached (HttpOutcome.ok json)).1 = cached := by
  obtain ⟨su, me, de, po, se, st⟩ := json
  dsimp only at hs hmiss
  subst hs
  rcases hmiss with h | h | h | h
  · subst h
    rfl
  · subst h
    rcases de with _ | d <;> rfl
  · subst h
    rcases de with _ | d <;> rcases po with _ | p <;> rfl
  · subst h
    rcases de with _ | d <;> rcases po with _ | p <;> rcases se with _ | s <;> rfl

/-- Witness for C10: success=true with `power_on` missing retains the
previously stored snapshot. -/
theorem C10_witness :
    respMissingPowerOn.success = some true ∧
    respMissingPowerOn.power_on = none ∧
    (update (some "rack3") (some snap0) (HttpOutcome.ok respMissingPowerOn)).1 =
      some snap0 :=
  ⟨rfl, rfl, C10_atomic_update (some "rack3") (some snap0) respMissingPowerOn
      rfl (Or.inr (Or.inl rfl))⟩

/-- C9: the whole-method results of `update` and of the command bodies are
always `Except.ok` — the broad `except Exception` converts every failure
into a logged outcome, so no exception propagates along the ordinary call
path and the object stays usable for the next call. -/
theorem C9_no_exception_propagation («alias» : Option String)
    (cached : Option IpmiDeviceInfo) (o : HttpOutcome) :
    update_method «alias» cached o = Except.ok (update «alias» cached o) ∧
    command_method o = Except.ok (command_result o) := by
  constructor
  · unfold update_method update tryExcept
    cases update_try «alias» cached o with
    | error e => rfl
    | ok r => rfl
  · cases o with
    | ok j => rfl
    | exn m => rfl

/-- C1 counterexample: with a previously stored snapshot, a failed poll (a
transport error here) is handed to the coordinator as a successful result
carrying the stale snapshot, not as a poll error. -/
theorem C1_counterexample :
    (update (some "rack3") (some snap0) (HttpOutcome.exn "timeout")).2 ≠ PollLog.noLog ∧
    async_update_data (some "rack3") (some snap0) (HttpOutcome.exn "timeout") =
      (some snap0, CoordinatorResult.ok snap0) :=
  ⟨by decide, rfl⟩

/-- C1 (amended): a failed poll is surfaced to the scheduler as
`UpdateFailed` exactly when no snapshot has ever been stored; when a
previous snapshot exists, the failed poll is returned to the scheduler as
a successful result carrying the stale snapshot. -/
theorem C1_failure_surfacing («alias» : Option String)
    (cached : Option IpmiDeviceInfo) (o : HttpOutcome)
    (hfail : (update «alias» cached o).2 ≠ PollLog.noLog) :
    async_update_data «alias» cached o =
      match cached with
      | none => (none, CoordinatorResult.updateFailed "Error fetching IPMI state")
      | some snap => (some snap, CoordinatorResult.ok snap) := by
  have h1 := update_failed_preserves «alias» cached o hfail
  unfold async_update_data
  rw [h1]
  cases cached with
  | none => rfl
  | some snap => rfl

/-- Witness for C1 (amended) at a concrete bridge rejection over a stored
snapshot. -/
theorem C1_witness :
    (update (some "rack3") (some snap0) (HttpOutcome.ok respAuthFail)).2 ≠ PollLog.noLog ∧
    async_update_data (some "rack3") (some snap0) (HttpOutcome.ok respAuthFail) =
      (some snap0, CoordinatorResult.ok snap0) :=
  ⟨by decide, C1_failure_surfacing (some "rack3") (some snap0)
      (HttpOutcome.ok respAuthFail) (by decide)⟩

/-- C6 counterexample: with alias "rack3" present but empty manufacturer
and product names, the code yields "rack3", not the form the claim's
universal wording prescribes ("" joined with the alias, i.e. "_rack3"). -/
theorem C6_counterexample :
    unique_id_from_status snapEmptyNames = Except.ok (some "rack3") ∧
    claimed_identity "" "" "rack3" = "_rack3" ∧
    ("rack3" : String) ≠ "_rack3" :=
  ⟨rfl, rfl, by decide⟩

/-- C6 (amended): for a snapshot carrying manufacturer m and product p with
a present (truthy) alias a, identity is the claimed joined form whenever m
or p is nonempty, and a alone when both are empty; Acme/X1/rack3 gives
"Acme_rack3". -/
theorem C6_identity_derivation (m p a : String) (po : Bool)
    (se st : List (String × String)) (ha : a ≠ "") :
    unique_id_from_status
      { device := [("manufacturer_name", m), ("product_name", p)],
        power_on := po, sensors := se, states := st, «alias» := some a } =
      Except.ok (some (if m = "" ∧ p = "" then a else claimed_identity m p a)) := by
  have hbeq : (a == "") = false := beq_eq_false_iff_ne.mpr ha
  unfold unique_id_from_status dictGet
  simp only [falsy, hbeq, Bool.false_eq_true, if_false, List.lookup,
             beq_self_eq_true, if_true]
  by_cases hm : m = ""
  · by_cases hpp : p = ""
    · subst hm; subst hpp
      simp [claimed_identity, intercalate_single]
    · subst hm
      simp [claimed_identity, hpp, intercalate_pair]
  · simp [claimed_identity, hm, intercalate_pair]

/-- Witness for C6 (amended) at the claim's own scenario Acme/X1/rack3. -/
theorem C6_witness :
    ("rack3" : String) ≠ "" ∧
    unique_id_from_status
      { device := [("manufacturer_name", "Acme"), ("product_name", "X1")],
        power_on := true, sensors := [], states := [], «alias» := some "rack3" } =
      Except.ok (some (if ("Acme" : String) = "" ∧ ("X1" : String) = "" then "rack3"
                       else claimed_identity "Acme" "X1" "rack3")) :=
  ⟨by decide, C6_identity_derivation "Acme" "X1" "rack3" true [] [] (by decide)⟩

/-- C7: identity derivation reads only the manufacturer name, the product
name and the alias — equal values of those three give equal results — and
an absent alias yields the sentinel regardless of every other field. -/
theorem C7_identity_deterministic (i1 i2 : IpmiDeviceInfo)
    (hm : i1.device.lookup "manufacturer_name" = i2.device.lookup "manufacturer_name")
    (hp : i1.device.lookup "product_name" = i2.device.lookup "product_name")
    (ha : i1.«alias» = i2.«alias») :
    unique_id_from_status i1 = unique_id_from_status i2 ∧
    (i1.«alias» = none → unique_id_from_status i1 = Except.ok none) := by
  constructor
  · unfold unique_id_from_status dictGet
    rw [ha, hm, hp]
  · intro h0
    unfold unique_id_from_status
    rw [h0]
    rfl

/-- Witness for C7: two snapshots differing in power state, sensors and
states but agreeing on the three identity inputs derive the same identity,
and with no alias the sentinel comes back. -/
theorem C7_witness :
    unique_id_from_status snapNoAlias = unique_id_from_status snapNoAlias2 ∧
    unique_id_from_status snapNoAlias = Except.ok none :=
  ⟨(C7_identity_deterministic snapNoAlias snapNoAlias2 rfl rfl rfl).1,
   (C7_identity_deterministic snapNoAlias snapNoAlias2 rfl rfl rfl).2 rfl⟩

/-- C2: dispatching any command name outside the five supported ones is
rejected as an unknown command by the action schema and issues no HTTP
request at all. -/
theorem C2_unknown_command_rejected (base : String) (cfg : ConnectionConfig)
    (name : String)
    (h : name ∉ ["power_on", "power_off", "power_cycle", "power_reset",
                 "soft_shutdown"]) :
    async_call_action_from_config base cfg name =
      (DispatchResult.unknownCommand name, []) := by
  have hA : ACTION_TYPES = ["power_on", "power_off", "power_cycle",
                            "power_reset", "soft_shutdown"] := by decide
  unfold async_call_action_from_config
  rw [hA]
  exact if_neg h

/-- Witness for C2: the name "update" (a real method of PyIpmiData, but
not a command) is rejected without issuing a request. -/
theorem C2_witness :
    ("update" : String) ∉ ["power_on", "power_off", "power_cycle",
                           "power_reset", "soft_shutdown"] ∧
    async_call_action_from_config "base" ⟨"h", 623, none, none, none⟩ "update" =
      (DispatchResult.unknownCommand "update", []) :=
  ⟨by decide, C2_unknown_command_rejected "base" ⟨"h", 623, none, none, none⟩
      "update" (by decide)⟩

/-- C8: each of the five command methods issues exactly one GET to the base
URL with the identically named sub-path appended and the same
host/port/user/password parameters as the status poll, which itself hits
the bare base URL. -/
theorem C8_requests_shape (base : String) (cfg : ConnectionConfig) :
    update_requests base cfg =
      [{ url := base, host := cfg.host, port := cfg.port,
         user := cfg.username, password := cfg.password }] ∧
    power_on_requests base cfg =
      [{ url := base ++ "/" ++ "power_on", host := cfg.host, port := cfg.port,
         user := cfg.username, password := cfg.password }] ∧
    power_off_requests base cfg =
      [{ url := base ++ "/" ++ "power_off", host := cfg.host, port := cfg.port,
         user := cfg.username, password := cfg.password }] ∧
    power_cycle_requests base cfg =
      [{ url := base ++ "/" ++ "power_cycle", host := cfg.host, port := cfg.port,
         user := cfg.username, password := cfg.password }] ∧
    power_reset_requests base cfg =
      [{ url := base ++ "/" ++ "power_reset", host := cfg.host, port := cfg.port,
         user := cfg.username, password := cfg.password }] ∧
    soft_shutdown_requests base cfg =
      [{ url := base ++ "/" ++ "soft_shutdown", host := cfg.host, port := cfg.port,
         user := cfg.username, password := cfg.password }] :=
  ⟨rfl, rfl, rfl, rfl, rfl, rfl⟩

/-- C3: evaluating setup with no alias configured: identity derivation
does return the sentinel, but the computation
`alias + _unique_id_from_status(...)` then raises TypeError (None + None),
so setup aborts instead of completing with the entry id as unique id. -/
theorem C3_missing_alias_aborts_setup :
    unique_id_from_status snapNoAlias = Except.ok none ∧
    setup_unique_id "entry-1" none snapNoAlias = SetupStep.typeError :=
  ⟨rfl, rfl⟩

end Ipmitool
